import Mathlib

/-!
The sensor processor base class of elevation_mapping.

A shallow embedding of
`elevation_mapping/src/sensor_processors/SensorProcessorBase.cpp`
and theorems about `process`, `updateTransformations` and `transformPointCloud`.

Modelling conventions.

* The scalar type `S` of coordinates is a parameter, together with its arithmetic `Arith S`:
  the conversion `cast<float>()`, the product and the sum of two `float`s, and the test
  `pcl_isfinite`. Two arithmetics are given: `Arith.exact`, the rationals without rounding,
  and `Arith.binary32`, IEEE 754 single precision with round to nearest, ties to even, with
  infinities and NaN, which is the arithmetic of the compiled code.
* The capture time conversion `1000.0 * header.stamp` is a `double` product; it is modelled
  on naturals by round-to-nearest-even at 53 significant bits (`roundToDouble`).
* `tf::TransformException` thrown by `lookupTransform` is `none`.
* The objects behind the pointer arguments are passed and returned explicitly; calls of the
  listener and of the member functions are recorded in a list of `Call`s.
* The pure virtual members `cleanPointCloud` and `computeVariances` are parameters (`Hooks`).
-/

namespace elevation_mapping

/-! ## Arithmetic -/

/-- The arithmetic of the coordinates: the constants zero and one, the conversion
`cast<float>()` of a `double`, the product and the sum of two `float`s, and the test
`pcl_isfinite`. -/
structure Arith (S : Type) where
  zero : S
  one : S
  cast : S → S
  mul : S → S → S
  add : S → S → S
  isfinite : S → Bool

/-- Exact arithmetic on the rationals: nothing is rounded and every value is finite. -/
def Arith.exact : Arith ℚ where
  zero := 0
  one := 1
  cast := fun x => x
  mul := fun x y => x * y
  add := fun x y => x + y
  isfinite := fun _ => true

/-- A floating-point value: `finite m e` is the number `m * 2 ^ e`. Signed zeros and the
payload of a NaN are not distinguished. A `double` is a value of this type as well. -/
inductive Fp where
  | finite (m : Int) (e : Int)
  | inf (negative : Bool)
  | nan
  deriving DecidableEq

/-- The number of bits of `n` (`fuel` bounds the recursion, `fuel = n` is enough). -/
def bitLength : Nat → Nat → Nat
  | 0, _ => 0
  | fuel + 1, n => if n = 0 then 0 else bitLength fuel (n / 2) + 1

/-- The number `m * 2 ^ e` written with an odd `m`, for `m` not zero (`fuel = m` is enough). -/
def stripZeros : Nat → Nat → Int → Nat × Int
  | 0, m, e => (m, e)
  | fuel + 1, m, e => if m % 2 = 0 then stripZeros fuel (m / 2) (e + 1) else (m, e)

/-- The quotient `a / 2 ^ s` rounded to the nearest integer, ties to even. -/
def roundHalfEven (a s : Nat) : Nat :=
  let q := a / 2 ^ s
  let r := a % 2 ^ s
  if 2 * r < 2 ^ s then q
  else if 2 ^ s < 2 * r then q + 1
  else if q % 2 = 0 then q
  else q + 1

/-- The number of magnitude `a * 2 ^ e` rounded to single precision: a significand of 24 bits,
the least unit `2 ^ (-149)`, the greatest finite value `(2 ^ 24 - 1) * 2 ^ 104`; round to
nearest, ties to even; what rounds to `2 ^ 128` or more is an infinity. -/
def roundBinary32 (negative : Bool) (a : Nat) (e : Int) : Fp :=
  if a = 0 then Fp.finite 0 0
  else
    let top : Int := e + (bitLength a a : Int) - 1
    let qe : Int := max (top - 23) (-149)
    let m : Nat := if qe ≤ e then a * 2 ^ (e - qe).toNat else roundHalfEven a (qe - e).toNat
    if m = 0 then Fp.finite 0 0
    else if 104 < qe ∨ (qe = 104 ∧ m = 2 ^ 24) then Fp.inf negative
    else
      let n := stripZeros m m qe
      Fp.finite (if negative then -(n.1 : Int) else (n.1 : Int)) n.2

/-- The conversion of a `double` to `float`. -/
def Fp.toBinary32 : Fp → Fp
  | .finite m e => roundBinary32 (decide (m < 0)) m.natAbs e
  | .inf s => .inf s
  | .nan => .nan

/-- The product of two `float`s. -/
def Fp.mul32 : Fp → Fp → Fp
  | .nan, _ => .nan
  | _, .nan => .nan
  | .inf s, .inf t => .inf (xor s t)
  | .inf s, .finite m _ => if m = 0 then .nan else .inf (xor s (decide (m < 0)))
  | .finite m _, .inf s => if m = 0 then .nan else .inf (xor s (decide (m < 0)))
  | .finite m1 e1, .finite m2 e2 =>
    roundBinary32 (decide (m1 * m2 < 0)) (m1 * m2).natAbs (e1 + e2)

/-- The sum of two `float`s. -/
def Fp.add32 : Fp → Fp → Fp
  | .nan, _ => .nan
  | _, .nan => .nan
  | .inf s, .inf t => if s = t then .inf s else .nan
  | .inf s, .finite _ _ => .inf s
  | .finite _ _, .inf s => .inf s
  | .finite m1 e1, .finite m2 e2 =>
    let e := min e1 e2
    let m := m1 * 2 ^ (e1 - e).toNat + m2 * 2 ^ (e2 - e).toNat
    roundBinary32 (decide (m < 0)) m.natAbs e

/-- Whether a value is neither an infinity nor a NaN. -/
def Fp.isFinite : Fp → Bool
  | .finite _ _ => true
  | _ => false

/-- The rational number a finite value stands for. -/
def Fp.toRat : Fp → Option ℚ
  | .finite m e => some ((m : ℚ) * (2 : ℚ) ^ e)
  | _ => none

/-- Single precision arithmetic, as in the compiled code: every product and every sum is
rounded on its own (no fused multiply-add). -/
def Arith.binary32 : Arith Fp where
  zero := Fp.finite 0 0
  one := Fp.finite 1 0
  cast := Fp.toBinary32
  mul := Fp.mul32
  add := Fp.add32
  isfinite := Fp.isFinite

/-! ## Geometry -/

/-- A 3-vector (`Eigen::Vector3d`, `tf::Vector3`). -/
structure Vec3 (S : Type) where
  x : S
  y : S
  z : S
  deriving DecidableEq

/-- A 4-vector, used for `sensor_origin_` and for the quaternion `sensor_orientation_`. -/
structure Vec4 (S : Type) where
  x : S
  y : S
  z : S
  w : S
  deriving DecidableEq

/-- A 3x3 matrix, entry `mij` in row `i`, column `j`. -/
structure Mat3 (S : Type) where
  m00 : S
  m01 : S
  m02 : S
  m10 : S
  m11 : S
  m12 : S
  m20 : S
  m21 : S
  m22 : S
  deriving DecidableEq

variable {S : Type}

/-- The identity matrix. -/
def Mat3.identity (A : Arith S) : Mat3 S :=
  ⟨A.one, A.zero, A.zero, A.zero, A.one, A.zero, A.zero, A.zero, A.one⟩

/-- The zero vector. -/
def Vec3.zero (A : Arith S) : Vec3 S := ⟨A.zero, A.zero, A.zero⟩

/-- An affine transform (`Eigen::Affine3d`): the upper 3x4 block of the 4x4 matrix, entries
`(i, j)` for `j < 3` in `linear` and `(i, 3)` in `translation`. -/
structure Affine3d (S : Type) where
  linear : Mat3 S
  translation : Vec3 S
  deriving DecidableEq

/-- The effect of `setIdentity()`. -/
def Affine3d.setIdentity (A : Arith S) (_ : Affine3d S) : Affine3d S :=
  ⟨Mat3.identity A, Vec3.zero A⟩

/-- The conversion `cast<float>()`: every entry is converted. -/
def Affine3d.cast (A : Arith S) (T : Affine3d S) : Affine3d S :=
  ⟨⟨A.cast T.linear.m00, A.cast T.linear.m01, A.cast T.linear.m02,
    A.cast T.linear.m10, A.cast T.linear.m11, A.cast T.linear.m12,
    A.cast T.linear.m20, A.cast T.linear.m21, A.cast T.linear.m22⟩,
   ⟨A.cast T.translation.x, A.cast T.translation.y, A.cast T.translation.z⟩⟩

/-- The member `rotation()`: the linear part (the transforms of tf are rigid). -/
def Affine3d.rotation (T : Affine3d S) : Mat3 S := T.linear

/-! ## Time -/

/-- A `ros::Time`, as a count of nanoseconds. -/
structure Time where
  toNSec : Nat
  deriving DecidableEq

/-- The member `fromNSec`. -/
def Time.fromNSec (t : Nat) : Time := ⟨t⟩

/-- A `ros::Duration`, in seconds. -/
structure Duration where
  toSec : ℚ
  deriving DecidableEq

/-- The member `fromSec` and the constructor `ros::Duration(double)`. -/
def Duration.fromSec (d : ℚ) : Duration := ⟨d⟩

/-- The number of low bits of `n` that do not fit in a significand of 53 bits: the number of
halvings that bring `n` below `2 ^ 53` (`fuel` bounds the recursion, `fuel = n` is enough). -/
def doubleExponent : Nat → Nat → Nat
  | 0, _ => 0
  | fuel + 1, n => if n < 2 ^ 53 then 0 else doubleExponent fuel (n / 2) + 1

/-- The value of a natural number converted to `double`: round to nearest, ties to even,
with 53 significant bits. -/
def roundToDouble (n : Nat) : Nat :=
  if n < 2 ^ 53 then n
  else
    let e := doubleExponent n n
    let q := n / 2 ^ e
    let r := n % 2 ^ e
    if 2 * r < 2 ^ e then q * 2 ^ e
    else if 2 ^ e < 2 * r then (q + 1) * 2 ^ e
    else if q % 2 = 0 then q * 2 ^ e
    else (q + 1) * 2 ^ e

/-- The argument of `fromNSec` in `process`: `1000.0 * stamp`, the `uint64_t` stamp converted
to `double`, multiplied in `double`, and converted back to `uint64_t` (for products
below `2 ^ 64`). -/
def stampTimesThousand (stamp : Nat) : Nat :=
  roundToDouble (1000 * roundToDouble stamp)

/-! ## Point clouds -/

/-- The header `pcl::PCLHeader`; `stamp` is in microseconds. -/
structure PCLHeader where
  seq : Nat
  stamp : Nat
  frame_id : String
  deriving DecidableEq

/-- A point `pcl::PointXYZRGB`: a position and a packed colour. -/
structure PointXYZRGB (S : Type) where
  x : S
  y : S
  z : S
  rgb : Nat
  deriving DecidableEq

/-- A cloud `pcl::PointCloud<pcl::PointXYZRGB>`. -/
structure PointCloud (S : Type) where
  header : PCLHeader
  points : List (PointXYZRGB S)
  width : Nat
  height : Nat
  is_dense : Bool
  sensor_origin_ : Vec4 S
  sensor_orientation_ : Vec4 S
  deriving DecidableEq

/-- A freshly constructed cloud (`new pcl::PointCloud<pcl::PointXYZRGB>`). -/
def PointCloud.new (A : Arith S) : PointCloud S :=
  ⟨⟨0, 0, ""⟩, [], 0, 0, true, ⟨A.zero, A.zero, A.zero, A.zero⟩,
    ⟨A.zero, A.zero, A.zero, A.one⟩⟩

/-- The test `pcl_isfinite`. -/
def pcl_isfinite (A : Arith S) (x : S) : Bool := A.isfinite x

/-- The library function `pcl::copyPointCloud(cloud_in, cloud_out)` for equal point types:
every field of `cloud_out` is assigned from `cloud_in`. -/
def pcl_copyPointCloud (cloud_in : PointCloud S) (_cloud_out : PointCloud S) : PointCloud S :=
  { header := cloud_in.header
    width := cloud_in.width
    height := cloud_in.height
    is_dense := cloud_in.is_dense
    sensor_orientation_ := cloud_in.sensor_orientation_
    sensor_origin_ := cloud_in.sensor_origin_
    points := cloud_in.points }

/-- One iteration of the loop of `pcl::transformPointCloud` (PCL 1.7), in `float`:
`transform (i, 0) * pt (0) + transform (i, 1) * pt (1) + transform (i, 2) * pt (2)
+ transform (i, 3)`, summed from the left. The position of the output point is overwritten,
the other channels are those copied from the input point. -/
def pcl_transformPoint (A : Arith S) (transform : Affine3d S) (pt : PointXYZRGB S) :
    PointXYZRGB S :=
  { pt with
    x := A.add (A.add (A.add (A.mul transform.linear.m00 pt.x)
          (A.mul transform.linear.m01 pt.y)) (A.mul transform.linear.m02 pt.z))
          transform.translation.x
    y := A.add (A.add (A.add (A.mul transform.linear.m10 pt.x)
          (A.mul transform.linear.m11 pt.y)) (A.mul transform.linear.m12 pt.z))
          transform.translation.y
    z := A.add (A.add (A.add (A.mul transform.linear.m20 pt.x)
          (A.mul transform.linear.m21 pt.y)) (A.mul transform.linear.m22 pt.z))
          transform.translation.z }

/-- The library function `pcl::transformPointCloud(cloud_in, cloud_out, transform)` for two
distinct cloud objects: `cloud_out` takes the header, shape and points of `cloud_in`, then
every point (in a cloud that is not dense: every point with finite coordinates) is
transformed. Returns the two objects after the call. -/
def pcl_transformPointCloud (A : Arith S) (cloud_in : PointCloud S) (_cloud_out : PointCloud S)
    (transform : Affine3d S) : PointCloud S × PointCloud S :=
  let copied : PointCloud S :=
    { header := cloud_in.header
      is_dense := cloud_in.is_dense
      width := cloud_in.width
      height := cloud_in.height
      points := cloud_in.points
      sensor_orientation_ := cloud_in.sensor_orientation_
      sensor_origin_ := cloud_in.sensor_origin_ }
  if cloud_in.is_dense then
    (cloud_in, { copied with points := copied.points.map (pcl_transformPoint A transform) })
  else
    (cloud_in,
      { copied with
        points := copied.points.map fun pt =>
          if !pcl_isfinite A pt.x || !pcl_isfinite A pt.y || !pcl_isfinite A pt.z then pt
          else pcl_transformPoint A transform pt })

/-! ## The pose source -/

/-- A `tf::StampedTransform`. -/
structure StampedTransform (S : Type) where
  basis : Mat3 S
  origin : Vec3 S
  stamp_ : Time
  frame_id_ : String
  child_frame_id_ : String
  deriving DecidableEq

/-- The conversion `poseTFToEigen`. -/
def poseTFToEigen (t : StampedTransform S) : Affine3d S := ⟨t.basis, t.origin⟩

/-- The `tf::TransformListener` as seen during one call: the answer of `waitForTransform`,
and the outcome of `lookupTransform(target, source, time, _)`, where `none` stands for a
thrown `tf::TransformException`. -/
structure TransformListener (S : Type) where
  waitForTransform : String → String → Time → Duration → Bool
  lookupTransform : String → String → Time → Option (StampedTransform S)

/-! ## The processor -/

/-- The robot pose covariance `Eigen::Matrix<double, 6, 6>`. -/
abbrev PoseCovariance (S : Type) := Matrix (Fin 6) (Fin 6) S

/-- The variance vector `Eigen::VectorXf`. -/
abbrev Variances (S : Type) := List S

/-- The data members of `SensorProcessorBase` (the listener reference is passed apart). -/
structure SensorProcessorBase (S : Type) where
  mapFrameId_ : String
  baseFrameId_ : String
  transformListenerTimeout_ : Duration
  rotationBaseToSensor_ : Mat3 S
  translationBaseToSensorInBaseFrame_ : Vec3 S
  rotationMapToBase_ : Mat3 S
  translationMapToBaseInMapFrame_ : Vec3 S
  transformationSensorToMap_ : Affine3d S
  deriving DecidableEq

/-- The constructor. The kindr members are default constructed (identity rotation, zero
position). -/
def SensorProcessorBase.new (A : Arith S) : SensorProcessorBase S :=
  let self : SensorProcessorBase S :=
    { mapFrameId_ := ""
      baseFrameId_ := ""
      transformListenerTimeout_ := ⟨0⟩
      rotationBaseToSensor_ := Mat3.identity A
      translationBaseToSensorInBaseFrame_ := Vec3.zero A
      rotationMapToBase_ := Mat3.identity A
      translationMapToBaseInMapFrame_ := Vec3.zero A
      transformationSensorToMap_ := ⟨Mat3.identity A, Vec3.zero A⟩ }
  let self :=
    { self with transformationSensorToMap_ := self.transformationSensorToMap_.setIdentity A }
  { self with transformListenerTimeout_ := Duration.fromSec 1 }

/-- A recorded call. -/
inductive Call (S : Type) where
  | cleanPointCloud (pointCloud : PointCloud S)
  | waitForTransform (target source : String) (time : Time) (timeout : Duration)
  | lookupTransform (target source : String) (time : Time)
  | transformPointCloud (pointCloud : PointCloud S) (targetFrame : String)
  | computeVariances (pointCloud : PointCloud S) (robotPoseCovariance : PoseCovariance S)

/-- The pure virtual members supplied by a concrete sensor processor. `cleanPointCloud` works
in place on the cloud it is given; `computeVariances` reads the processor and the cloud and
writes the variance vector. -/
structure Hooks (S : Type) where
  cleanPointCloud : PointCloud S → Bool × PointCloud S
  computeVariances : SensorProcessorBase S → PointCloud S → PoseCovariance S → Variances S →
    Bool × Variances S

/-- The member `updateTransformations`: the returned flag, the processor after the call and
the listener calls made, in order. -/
def updateTransformations (transformListener_ : TransformListener S)
    (self : SensorProcessorBase S) (sensorFrameId : String) (timeStamp : Time) :
    Bool × SensorProcessorBase S × List (Call S) :=
  let c0 : Call S :=
    Call.waitForTransform sensorFrameId self.mapFrameId_ timeStamp (Duration.fromSec 1)
  let _ := transformListener_.waitForTransform sensorFrameId self.mapFrameId_ timeStamp
    (Duration.fromSec 1)
  let c1 : Call S := Call.lookupTransform self.mapFrameId_ sensorFrameId timeStamp
  match transformListener_.lookupTransform self.mapFrameId_ sensorFrameId timeStamp with
  | none => (false, self, [c0, c1])
  | some transformTf =>
    let self := { self with transformationSensorToMap_ := poseTFToEigen transformTf }
    let c2 : Call S := Call.lookupTransform self.baseFrameId_ sensorFrameId timeStamp
    match transformListener_.lookupTransform self.baseFrameId_ sensorFrameId timeStamp with
    | none => (false, self, [c0, c1, c2])
    | some transformTf =>
      let transform := poseTFToEigen transformTf
      let self := { self with rotationBaseToSensor_ := transform.rotation }
      let self := { self with translationBaseToSensorInBaseFrame_ := transform.translation }
      let c3 : Call S := Call.lookupTransform self.mapFrameId_ self.baseFrameId_ timeStamp
      match transformListener_.lookupTransform self.mapFrameId_ self.baseFrameId_ timeStamp with
      | none => (false, self, [c0, c1, c2, c3])
      | some transformTf =>
        let transform := poseTFToEigen transformTf
        let self := { self with rotationMapToBase_ := transform.rotation }
        let self := { self with translationMapToBaseInMapFrame_ := transform.translation }
        (true, self, [c0, c1, c2, c3])

/-- The member `transformPointCloud`: the returned flag and the objects behind `pointCloud` and
`pointCloudTransformed` after the call. -/
def transformPointCloud (A : Arith S) (self : SensorProcessorBase S) (pointCloud : PointCloud S)
    (pointCloudTransformed : PointCloud S) (targetFrame : String) :
    Bool × PointCloud S × PointCloud S :=
  let r := pcl_transformPointCloud A pointCloud pointCloudTransformed
    (self.transformationSensorToMap_.cast A)
  let pointCloudTransformed := r.2
  let pointCloudTransformed :=
    { pointCloudTransformed with
      header := { pointCloudTransformed.header with frame_id := targetFrame } }
  (true, r.1, pointCloudTransformed)

/-- What a call of `process` leaves behind: the processor, the objects behind the two output
arguments, and the calls made, in order. -/
structure Outcome (S : Type) where
  self : SensorProcessorBase S
  pointCloudOutput : PointCloud S
  variances : Variances S
  calls : List (Call S)

/-- The member `process`, with the time stamp conversion of ROS Hydro and newer (the branch
selected by `ROS_VERSION_MINIMUM(1, 10, 0)`). The flag returned by `cleanPointCloud` is not
read. -/
def process (A : Arith S) (hooks : Hooks S) (transformListener_ : TransformListener S)
    (self : SensorProcessorBase S) (pointCloudInput : PointCloud S)
    (robotPoseCovariance : PoseCovariance S) (pointCloudOutput : PointCloud S)
    (variances : Variances S) : Bool × Outcome S :=
  let pointCloudClean := PointCloud.new A
  let pointCloudClean := pcl_copyPointCloud pointCloudInput pointCloudClean
  let k0 : List (Call S) := [Call.cleanPointCloud pointCloudClean]
  let pointCloudClean := (hooks.cleanPointCloud pointCloudClean).2
  let timeStamp := Time.fromNSec (stampTimesThousand pointCloudClean.header.stamp)
  let u := updateTransformations transformListener_ self pointCloudClean.header.frame_id timeStamp
  if !u.1 then (false, ⟨u.2.1, pointCloudOutput, variances, k0 ++ u.2.2⟩)
  else
    let self := u.2.1
    let k1 := k0 ++ u.2.2 ++ [Call.transformPointCloud pointCloudClean self.mapFrameId_]
    let t := transformPointCloud A self pointCloudClean pointCloudOutput self.mapFrameId_
    let pointCloudClean := t.2.1
    let pointCloudOutput := t.2.2
    if !t.1 then (false, ⟨self, pointCloudOutput, variances, k1⟩)
    else
      let k2 := k1 ++ [Call.computeVariances pointCloudClean robotPoseCovariance]
      let v := hooks.computeVariances self pointCloudClean robotPoseCovariance variances
      if !v.1 then (false, ⟨self, pointCloudOutput, v.2, k2⟩)
      else (true, ⟨self, pointCloudOutput, v.2, k2⟩)

/-! ## Names for the locals of `process` and for recorded calls -/

/-- The local `pointCloudClean` of `process` after the call of `cleanPointCloud`: the cleaned
copy of the input cloud. -/
def cleanedCloud (hooks : Hooks S) (pointCloudInput : PointCloud S) : PointCloud S :=
  (hooks.cleanPointCloud pointCloudInput).2

/-- The local `timeStamp` of `process`. -/
def captureTime (hooks : Hooks S) (pointCloudInput : PointCloud S) : Time :=
  Time.fromNSec (stampTimesThousand (cleanedCloud hooks pointCloudInput).header.stamp)

/-- Whether a recorded call is a call of `transformPointCloud`. -/
def Call.isTransformPointCloud : Call S → Bool
  | .transformPointCloud _ _ => true
  | _ => false

/-- Whether a recorded call is a call of `computeVariances`. -/
def Call.isComputeVariances : Call S → Bool
  | .computeVariances _ _ => true
  | _ => false

/-- Whether a recorded call is a call of `waitForTransform`. -/
def Call.isWaitForTransform : Call S → Bool
  | .waitForTransform _ _ _ _ => true
  | _ => false

/-- The time argument of a recorded listener call. -/
def Call.time? : Call S → Option Time
  | .waitForTransform _ _ time _ => some time
  | .lookupTransform _ _ time => some time
  | _ => none

/-- Whether a recorded call waits on the frame pair `a`, `b` (in either order) with the given
timeout. -/
def Call.waitsOn (a b : String) (timeout : Duration) : Call S → Bool
  | .waitForTransform target source _ d =>
    ((target == a && source == b) || (target == b && source == a)) && decide (d = timeout)
  | _ => false

/-- The listener calls of `updateTransformations` up to and including lookup number `n`. -/
def listenerCalls (self : SensorProcessorBase S) (sensorFrameId : String) (timeStamp : Time)
    (n : Nat) : List (Call S) :=
  [Call.waitForTransform sensorFrameId self.mapFrameId_ timeStamp (Duration.fromSec 1),
   Call.lookupTransform self.mapFrameId_ sensorFrameId timeStamp,
   Call.lookupTransform self.baseFrameId_ sensorFrameId timeStamp,
   Call.lookupTransform self.mapFrameId_ self.baseFrameId_ timeStamp].take (n + 1)

/-! ## Matrix views, used to state the geometric properties in exact arithmetic -/

/-- A `Mat3` as a matrix. -/
def Mat3.toMatrix (M : Mat3 ℚ) : Matrix (Fin 3) (Fin 3) ℚ :=
  !![M.m00, M.m01, M.m02; M.m10, M.m11, M.m12; M.m20, M.m21, M.m22]

/-- A `Vec3` as a vector. -/
def Vec3.toVector (v : Vec3 ℚ) : Fin 3 → ℚ := ![v.x, v.y, v.z]

/-- The position of a point as a vector. -/
def PointXYZRGB.position (p : PointXYZRGB ℚ) : Fin 3 → ℚ := ![p.x, p.y, p.z]

/-- The transposed matrix. -/
def Mat3.transpose (M : Mat3 S) : Mat3 S :=
  ⟨M.m00, M.m10, M.m20, M.m01, M.m11, M.m21, M.m02, M.m12, M.m22⟩

/-- The product of a matrix and a vector. -/
def Mat3.mulVec (M : Mat3 ℚ) (v : Vec3 ℚ) : Vec3 ℚ :=
  ⟨M.m00 * v.x + M.m01 * v.y + M.m02 * v.z,
   M.m10 * v.x + M.m11 * v.y + M.m12 * v.z,
   M.m20 * v.x + M.m21 * v.y + M.m22 * v.z⟩

/-- The opposite vector. -/
def Vec3.neg (v : Vec3 ℚ) : Vec3 ℚ := ⟨-v.x, -v.y, -v.z⟩

/-- The inverse of a rigid transform `(R, t)`, as the pair `(R^T, -R^T t)`. -/
def inverseRigid (T : Affine3d ℚ) : Affine3d ℚ :=
  ⟨T.linear.transpose, (T.linear.transpose.mulVec T.translation).neg⟩

/-! ## Sample data -/

/-- A sensor model whose cleaning keeps every point and whose variances are one zero per
point. -/
def sampleHooks : Hooks ℚ where
  cleanPointCloud := fun c => (true, c)
  computeVariances := fun _ c _ _ => (true, c.points.map fun _ => 0)

/-- A sensor model whose variance computation fails. -/
def failingVarianceHooks : Hooks ℚ where
  cleanPointCloud := fun c => (true, c)
  computeVariances := fun _ _ _ v => (false, v)

/-- A pure translation by `(1, 0, 0)` from frame `source` to frame `target`, stamped at
`time`. -/
def shiftTransform (target source : String) (time : Time) : StampedTransform ℚ :=
  ⟨⟨1, 0, 0, 0, 1, 0, 0, 0, 1⟩, ⟨1, 0, 0⟩, time, target, source⟩

/-- A pose source that has no data at all. -/
def silentListener : TransformListener ℚ where
  waitForTransform := fun _ _ _ _ => false
  lookupTransform := fun _ _ _ => none

/-- A pose source that answers every lookup. -/
def staticListener : TransformListener ℚ where
  waitForTransform := fun _ _ _ _ => true
  lookupTransform := fun target source time => some (shiftTransform target source time)

/-- A pose source that only knows the transform from `sensor` to `map`. -/
def sensorOnlyListener : TransformListener ℚ where
  waitForTransform := fun _ _ _ _ => true
  lookupTransform := fun target source time =>
    if target = "map" ∧ source = "sensor" then some (shiftTransform target source time)
    else none

/-- A configured processor: frames `map` and `base`, timeout of five seconds. -/
def sampleProcessor : SensorProcessorBase ℚ :=
  { SensorProcessorBase.new Arith.exact with
    mapFrameId_ := "map"
    baseFrameId_ := "base"
    transformListenerTimeout_ := Duration.fromSec 5 }

/-- A cloud of one point in frame `sensor`, captured at `stamp` microseconds. -/
def onePointCloud (stamp : Nat) : PointCloud ℚ :=
  ⟨⟨0, stamp, "sensor"⟩, [⟨1, 2, 3, 255⟩], 1, 1, true, ⟨0, 0, 0, 0⟩, ⟨0, 0, 0, 1⟩⟩

/-- A cloud without points in frame `sensor`. -/
def emptyCloud : PointCloud ℚ :=
  ⟨⟨0, 0, "sensor"⟩, [], 0, 0, true, ⟨0, 0, 0, 0⟩, ⟨0, 0, 0, 1⟩⟩

/-- A quarter turn about the vertical axis followed by a translation. -/
def quarterTurn : Affine3d ℚ := ⟨⟨0, -1, 0, 1, 0, 0, 0, 0, 1⟩, ⟨1, 2, 3⟩⟩

/-- A single precision processor whose cached transform is the translation by `(1, 0, 0)`. -/
def shiftProcessor : SensorProcessorBase Fp :=
  { SensorProcessorBase.new Arith.binary32 with
    mapFrameId_ := "map"
    baseFrameId_ := "base"
    transformationSensorToMap_ :=
      ⟨Mat3.identity Arith.binary32, ⟨Fp.finite 1 0, Fp.finite 0 0, Fp.finite 0 0⟩⟩ }

/-- A single precision processor whose cached transform is the half turn about the vertical
axis. -/
def halfTurnProcessor : SensorProcessorBase Fp :=
  { SensorProcessorBase.new Arith.binary32 with
    mapFrameId_ := "map"
    baseFrameId_ := "base"
    transformationSensorToMap_ :=
      ⟨⟨Fp.finite (-1) 0, Fp.finite 0 0, Fp.finite 0 0,
        Fp.finite 0 0, Fp.finite (-1) 0, Fp.finite 0 0,
        Fp.finite 0 0, Fp.finite 0 0, Fp.finite 1 0⟩,
       Vec3.zero Arith.binary32⟩ }

/-- A dense single precision cloud with the one point `(2 ^ 24, 0, 0)`. -/
def farPointCloud : PointCloud Fp :=
  ⟨⟨0, 7, "sensor"⟩, [⟨Fp.finite 1 24, Fp.finite 0 0, Fp.finite 0 0, 255⟩], 1, 1, true,
    ⟨Fp.finite 0 0, Fp.finite 0 0, Fp.finite 0 0, Fp.finite 0 0⟩,
    ⟨Fp.finite 0 0, Fp.finite 0 0, Fp.finite 0 0, Fp.finite 1 0⟩⟩

/-- A single precision cloud that is not dense, with the one point `(+inf, 0, 0)`. -/
def unboundedPointCloud : PointCloud Fp :=
  ⟨⟨0, 7, "sensor"⟩, [⟨Fp.inf false, Fp.finite 0 0, Fp.finite 0 0, 255⟩], 1, 1, false,
    ⟨Fp.finite 0 0, Fp.finite 0 0, Fp.finite 0 0, Fp.finite 0 0⟩,
    ⟨Fp.finite 0 0, Fp.finite 0 0, Fp.finite 0 0, Fp.finite 1 0⟩⟩

/-! ## `updateTransformations` -/

/-- When the first lookup throws, nothing is written. -/
theorem updateTransformations_first_fails (tl : TransformListener S)
    (self : SensorProcessorBase S) (sensorFrameId : String) (timeStamp : Time)
    (h1 : tl.lookupTransform self.mapFrameId_ sensorFrameId timeStamp = none) :
    updateTransformations tl self sensorFrameId timeStamp
      = (false, self, listenerCalls self sensorFrameId timeStamp 1) := by
  simp [updateTransformations, h1, listenerCalls]

/-- When the second lookup throws, the sensor-to-map transform has been written. -/
theorem updateTransformations_second_fails (tl : TransformListener S)
    (self : SensorProcessorBase S) (sensorFrameId : String) (timeStamp : Time)
    (t1 : StampedTransform S)
    (h1 : tl.lookupTransform self.mapFrameId_ sensorFrameId timeStamp = some t1)
    (h2 : tl.lookupTransform self.baseFrameId_ sensorFrameId timeStamp = none) :
    updateTransformations tl self sensorFrameId timeStamp
      = (false, { self with transformationSensorToMap_ := poseTFToEigen t1 },
          listenerCalls self sensorFrameId timeStamp 2) := by
  simp [updateTransformations, h1, h2, listenerCalls]

/-- When the third lookup throws, the first three cached outputs have been written. -/
theorem updateTransformations_third_fails (tl : TransformListener S)
    (self : SensorProcessorBase S) (sensorFrameId : String) (timeStamp : Time)
    (t1 t2 : StampedTransform S)
    (h1 : tl.lookupTransform self.mapFrameId_ sensorFrameId timeStamp = some t1)
    (h2 : tl.lookupTransform self.baseFrameId_ sensorFrameId timeStamp = some t2)
    (h3 : tl.lookupTransform self.mapFrameId_ self.baseFrameId_ timeStamp = none) :
    updateTransformations tl self sensorFrameId timeStamp
      = (false,
          { self with
            transformationSensorToMap_ := poseTFToEigen t1
            rotationBaseToSensor_ := t2.basis
            translationBaseToSensorInBaseFrame_ := t2.origin },
          listenerCalls self sensorFrameId timeStamp 3) := by
  simp [updateTransformations, h1, h2, h3, listenerCalls, poseTFToEigen, Affine3d.rotation]

/-- When the three lookups succeed, all five cached outputs are written. -/
theorem updateTransformations_succeeds (tl : TransformListener S)
    (self : SensorProcessorBase S) (sensorFrameId : String) (timeStamp : Time)
    (t1 t2 t3 : StampedTransform S)
    (h1 : tl.lookupTransform self.mapFrameId_ sensorFrameId timeStamp = some t1)
    (h2 : tl.lookupTransform self.baseFrameId_ sensorFrameId timeStamp = some t2)
    (h3 : tl.lookupTransform self.mapFrameId_ self.baseFrameId_ timeStamp = some t3) :
    updateTransformations tl self sensorFrameId timeStamp
      = (true,
          { self with
            transformationSensorToMap_ := poseTFToEigen t1
            rotationBaseToSensor_ := t2.basis
            translationBaseToSensorInBaseFrame_ := t2.origin
            rotationMapToBase_ := t3.basis
            translationMapToBaseInMapFrame_ := t3.origin },
          listenerCalls self sensorFrameId timeStamp 3) := by
  simp [updateTransformations, h1, h2, h3, listenerCalls, poseTFToEigen, Affine3d.rotation]

/-- The four possible runs of `updateTransformations`. -/
theorem updateTransformations_cases (tl : TransformListener S)
    (self : SensorProcessorBase S) (sensorFrameId : String) (timeStamp : Time) :
    (tl.lookupTransform self.mapFrameId_ sensorFrameId timeStamp = none
        ∧ updateTransformations tl self sensorFrameId timeStamp
          = (false, self, listenerCalls self sensorFrameId timeStamp 1))
    ∨ (∃ t1, tl.lookupTransform self.mapFrameId_ sensorFrameId timeStamp = some t1
        ∧ tl.lookupTransform self.baseFrameId_ sensorFrameId timeStamp = none
        ∧ updateTransformations tl self sensorFrameId timeStamp
          = (false, { self with transformationSensorToMap_ := poseTFToEigen t1 },
              listenerCalls self sensorFrameId timeStamp 2))
    ∨ (∃ t1 t2, tl.lookupTransform self.mapFrameId_ sensorFrameId timeStamp = some t1
        ∧ tl.lookupTransform self.baseFrameId_ sensorFrameId timeStamp = some t2
        ∧ tl.lookupTransform self.mapFrameId_ self.baseFrameId_ timeStamp = none
        ∧ updateTransformations tl self sensorFrameId timeStamp
          = (false,
              { self with
                transformationSensorToMap_ := poseTFToEigen t1
                rotationBaseToSensor_ := t2.basis
                translationBaseToSensorInBaseFrame_ := t2.origin },
              listenerCalls self sensorFrameId timeStamp 3))
    ∨ (∃ t1 t2 t3, tl.lookupTransform self.mapFrameId_ sensorFrameId timeStamp = some t1
        ∧ tl.lookupTransform self.baseFrameId_ sensorFrameId timeStamp = some t2
        ∧ tl.lookupTransform self.mapFrameId_ self.baseFrameId_ timeStamp = some t3
        ∧ updateTransformations tl self sensorFrameId timeStamp
          = (true,
              { self with
                transformationSensorToMap_ := poseTFToEigen t1
                rotationBaseToSensor_ := t2.basis
                translationBaseToSensorInBaseFrame_ := t2.origin
                rotationMapToBase_ := t3.basis
                translationMapToBaseInMapFrame_ := t3.origin },
              listenerCalls self sensorFrameId timeStamp 3)) := by
  cases h1 : tl.lookupTransform self.mapFrameId_ sensorFrameId timeStamp with
  | none => exact Or.inl ⟨rfl, updateTransformations_first_fails tl self _ _ h1⟩
  | some t1 =>
    cases h2 : tl.lookupTransform self.baseFrameId_ sensorFrameId timeStamp with
    | none =>
      exact Or.inr (Or.inl ⟨t1, rfl, rfl, updateTransformations_second_fails tl self _ _ t1 h1 h2⟩)
    | some t2 =>
      cases h3 : tl.lookupTransform self.mapFrameId_ self.baseFrameId_ timeStamp with
      | none =>
        exact Or.inr (Or.inr (Or.inl
          ⟨t1, t2, rfl, rfl, rfl, updateTransformations_third_fails tl self _ _ t1 t2 h1 h2 h3⟩))
      | some t3 =>
        exact Or.inr (Or.inr (Or.inr
          ⟨t1, t2, t3, rfl, rfl, rfl,
            updateTransformations_succeeds tl self _ _ t1 t2 t3 h1 h2 h3⟩))

/-- The member `updateTransformations` fails exactly when one of the three lookups throws. -/
theorem updateTransformations_fails_iff (tl : TransformListener S)
    (self : SensorProcessorBase S) (sensorFrameId : String) (timeStamp : Time) :
    (updateTransformations tl self sensorFrameId timeStamp).1 = false
      ↔ tl.lookupTransform self.mapFrameId_ sensorFrameId timeStamp = none
        ∨ tl.lookupTransform self.baseFrameId_ sensorFrameId timeStamp = none
        ∨ tl.lookupTransform self.mapFrameId_ self.baseFrameId_ timeStamp = none := by
  rcases updateTransformations_cases tl self sensorFrameId timeStamp with
    ⟨h1, h⟩ | ⟨_, h1, h2, h⟩ | ⟨_, _, h1, h2, h3, h⟩ | ⟨_, _, _, h1, h2, h3, h⟩
  · simp [h, h1]
  · simp [h, h1, h2]
  · simp [h, h1, h2, h3]
  · simp [h, h1, h2, h3]

/-- The calls recorded by `updateTransformations` are listener calls. -/
theorem updateTransformations_calls_listener_only (tl : TransformListener S)
    (self : SensorProcessorBase S) (sensorFrameId : String) (timeStamp : Time) :
    ((updateTransformations tl self sensorFrameId timeStamp).2.2.all fun c =>
      !c.isTransformPointCloud && !c.isComputeVariances) = true := by
  rcases updateTransformations_cases tl self sensorFrameId timeStamp with
    ⟨_, h⟩ | ⟨_, _, _, h⟩ | ⟨_, _, _, _, _, h⟩ | ⟨_, _, _, _, _, _, h⟩ <;> rw [h] <;> rfl

/-- The frame identifiers and the timeout are never written by `updateTransformations`. -/
theorem updateTransformations_configuration (tl : TransformListener S)
    (self : SensorProcessorBase S) (sensorFrameId : String) (timeStamp : Time) :
    (updateTransformations tl self sensorFrameId timeStamp).2.1.mapFrameId_ = self.mapFrameId_
      ∧ (updateTransformations tl self sensorFrameId timeStamp).2.1.baseFrameId_
          = self.baseFrameId_
      ∧ (updateTransformations tl self sensorFrameId timeStamp).2.1.transformListenerTimeout_
          = self.transformListenerTimeout_ := by
  rcases updateTransformations_cases tl self sensorFrameId timeStamp with
    ⟨_, h⟩ | ⟨_, _, _, h⟩ | ⟨_, _, _, _, _, h⟩ | ⟨_, _, _, _, _, _, h⟩ <;> rw [h] <;>
    exact ⟨rfl, rfl, rfl⟩

/-! ## `transformPointCloud` -/

/-- The library transform leaves its input object as it was. -/
theorem pcl_transformPointCloud_input (A : Arith S) (cloud_in cloud_out : PointCloud S)
    (T : Affine3d S) :
    (pcl_transformPointCloud A cloud_in cloud_out T).1 = cloud_in := by
  unfold pcl_transformPointCloud
  split <;> rfl

/-- The points written by the library transform. -/
theorem pcl_transformPointCloud_points (A : Arith S) (cloud_in cloud_out : PointCloud S)
    (T : Affine3d S) :
    (pcl_transformPointCloud A cloud_in cloud_out T).2.points
      = cloud_in.points.map fun pt =>
          if cloud_in.is_dense = true
              ∨ (A.isfinite pt.x = true ∧ A.isfinite pt.y = true ∧ A.isfinite pt.z = true)
          then pcl_transformPoint A T pt
          else pt := by
  unfold pcl_transformPointCloud
  cases hd : cloud_in.is_dense
  · simp only [Bool.false_eq_true, if_false, false_or]
    refine List.map_congr_left fun pt _ => ?_
    cases hx : A.isfinite pt.x <;> cases hy : A.isfinite pt.y <;> cases hz : A.isfinite pt.z <;>
      simp [pcl_isfinite, hx, hy, hz]
  · simp

/-- The header written by the library transform. -/
theorem pcl_transformPointCloud_header (A : Arith S) (cloud_in cloud_out : PointCloud S)
    (T : Affine3d S) :
    (pcl_transformPointCloud A cloud_in cloud_out T).2.header = cloud_in.header := by
  unfold pcl_transformPointCloud
  split <;> rfl

/-- The member `transformPointCloud` returns `true`. -/
theorem transformPointCloud_flag (A : Arith S) (self : SensorProcessorBase S)
    (pointCloud pointCloudTransformed : PointCloud S) (targetFrame : String) :
    (transformPointCloud A self pointCloud pointCloudTransformed targetFrame).1 = true := rfl

/-- The member `transformPointCloud` leaves its input object as it was. -/
theorem transformPointCloud_input (A : Arith S) (self : SensorProcessorBase S)
    (pointCloud pointCloudTransformed : PointCloud S) (targetFrame : String) :
    (transformPointCloud A self pointCloud pointCloudTransformed targetFrame).2.1 = pointCloud := by
  simp [transformPointCloud, pcl_transformPointCloud_input]

/-- The points written by the member `transformPointCloud`. -/
theorem transformPointCloud_points (A : Arith S) (self : SensorProcessorBase S)
    (pointCloud pointCloudTransformed : PointCloud S) (targetFrame : String) :
    (transformPointCloud A self pointCloud pointCloudTransformed targetFrame).2.2.points
      = pointCloud.points.map fun pt =>
          if pointCloud.is_dense = true
              ∨ (A.isfinite pt.x = true ∧ A.isfinite pt.y = true ∧ A.isfinite pt.z = true)
          then pcl_transformPoint A (self.transformationSensorToMap_.cast A) pt
          else pt := by
  simp [transformPointCloud, pcl_transformPointCloud_points]

/-- In exact arithmetic every point is transformed, by the cached transform itself. -/
theorem transformPointCloud_points_exact (self : SensorProcessorBase ℚ)
    (pointCloud pointCloudTransformed : PointCloud ℚ) (targetFrame : String) :
    (transformPointCloud Arith.exact self pointCloud pointCloudTransformed
        targetFrame).2.2.points
      = pointCloud.points.map
          (pcl_transformPoint Arith.exact self.transformationSensorToMap_) := by
  rw [transformPointCloud_points]
  refine List.map_congr_left fun pt _ => ?_
  simp [Arith.exact, Affine3d.cast]

/-- A cloud without points is transformed to a cloud without points. -/
theorem transformPointCloud_points_nil (A : Arith S) (self : SensorProcessorBase S)
    (pointCloud pointCloudTransformed : PointCloud S) (targetFrame : String)
    (h : pointCloud.points = []) :
    (transformPointCloud A self pointCloud pointCloudTransformed targetFrame).2.2.points
      = [] := by
  rw [transformPointCloud_points, h]
  rfl

/-- The header written by the member `transformPointCloud`. -/
theorem transformPointCloud_header (A : Arith S) (self : SensorProcessorBase S)
    (pointCloud pointCloudTransformed : PointCloud S) (targetFrame : String) :
    (transformPointCloud A self pointCloud pointCloudTransformed targetFrame).2.2.header
      = { pointCloud.header with frame_id := targetFrame } := by
  simp [transformPointCloud, pcl_transformPointCloud_header]

/-! ## `process` -/

/-- The library copy gives the input cloud, whatever the target held. -/
theorem pcl_copyPointCloud_eq (cloud_in cloud_out : PointCloud S) :
    pcl_copyPointCloud cloud_in cloud_out = cloud_in := rfl

/-- The run of `process` when `updateTransformations` fails. -/
theorem process_of_update_fails (A : Arith S) (hooks : Hooks S) (tl : TransformListener S)
    (self : SensorProcessorBase S) (pointCloudInput : PointCloud S)
    (robotPoseCovariance : PoseCovariance S) (pointCloudOutput : PointCloud S)
    (variances : Variances S)
    (h : (updateTransformations tl self (cleanedCloud hooks pointCloudInput).header.frame_id
      (captureTime hooks pointCloudInput)).1 = false) :
    process A hooks tl self pointCloudInput robotPoseCovariance pointCloudOutput variances
      = (false,
          ⟨(updateTransformations tl self (cleanedCloud hooks pointCloudInput).header.frame_id
              (captureTime hooks pointCloudInput)).2.1,
            pointCloudOutput, variances,
            Call.cleanPointCloud pointCloudInput
              :: (updateTransformations tl self
                    (cleanedCloud hooks pointCloudInput).header.frame_id
                    (captureTime hooks pointCloudInput)).2.2⟩) := by
  simp only [cleanedCloud, captureTime] at h
  simp [process, h, cleanedCloud, captureTime, pcl_copyPointCloud_eq]

/-- The run of `process` when `updateTransformations` succeeds. -/
theorem process_of_update_succeeds (A : Arith S) (hooks : Hooks S) (tl : TransformListener S)
    (self : SensorProcessorBase S) (pointCloudInput : PointCloud S)
    (robotPoseCovariance : PoseCovariance S) (pointCloudOutput : PointCloud S)
    (variances : Variances S)
    (h : (updateTransformations tl self (cleanedCloud hooks pointCloudInput).header.frame_id
      (captureTime hooks pointCloudInput)).1 = true) :
    process A hooks tl self pointCloudInput robotPoseCovariance pointCloudOutput variances
      = ((hooks.computeVariances
            (updateTransformations tl self (cleanedCloud hooks pointCloudInput).header.frame_id
              (captureTime hooks pointCloudInput)).2.1
            (cleanedCloud hooks pointCloudInput) robotPoseCovariance variances).1,
          ⟨(updateTransformations tl self (cleanedCloud hooks pointCloudInput).header.frame_id
              (captureTime hooks pointCloudInput)).2.1,
            (transformPointCloud A
              (updateTransformations tl self (cleanedCloud hooks pointCloudInput).header.frame_id
                (captureTime hooks pointCloudInput)).2.1
              (cleanedCloud hooks pointCloudInput) pointCloudOutput self.mapFrameId_).2.2,
            (hooks.computeVariances
              (updateTransformations tl self (cleanedCloud hooks pointCloudInput).header.frame_id
                (captureTime hooks pointCloudInput)).2.1
              (cleanedCloud hooks pointCloudInput) robotPoseCovariance variances).2,
            Call.cleanPointCloud pointCloudInput
              :: (updateTransformations tl self
                    (cleanedCloud hooks pointCloudInput).header.frame_id
                    (captureTime hooks pointCloudInput)).2.2
              ++ [Call.transformPointCloud (cleanedCloud hooks pointCloudInput) self.mapFrameId_,
                  Call.computeVariances (cleanedCloud hooks pointCloudInput)
                    robotPoseCovariance]⟩) := by
  have hm := (updateTransformations_configuration tl self
    (cleanedCloud hooks pointCloudInput).header.frame_id (captureTime hooks pointCloudInput)).1
  simp only [cleanedCloud, captureTime] at h hm
  cases hv : (hooks.computeVariances
            (updateTransformations tl self (cleanedCloud hooks pointCloudInput).header.frame_id
              (captureTime hooks pointCloudInput)).2.1
            (cleanedCloud hooks pointCloudInput) robotPoseCovariance variances).1 <;>
  simp only [cleanedCloud, captureTime] at hv <;>
  simp [process, h, hm, hv, cleanedCloud, captureTime, transformPointCloud_flag,
    transformPointCloud_input, pcl_copyPointCloud_eq]

/-! ## Claims on `process` and `updateTransformations` -/


/-- C1: if `updateTransformations` fails, `process` returns `false`, records no call of
`transformPointCloud` or `computeVariances`, and leaves the output cloud and the variance vector
of the caller as they were. -/
theorem process_aborts_on_transform_failure (A : Arith S) (hooks : Hooks S)
    (tl : TransformListener S)
    (self : SensorProcessorBase S) (pointCloudInput : PointCloud S)
    (robotPoseCovariance : PoseCovariance S) (pointCloudOutput : PointCloud S)
    (variances : Variances S)
    (h : (updateTransformations tl self (cleanedCloud hooks pointCloudInput).header.frame_id
      (captureTime hooks pointCloudInput)).1 = false) :
    (process A hooks tl self pointCloudInput robotPoseCovariance pointCloudOutput variances).1
        = false
      ∧ (process A hooks tl self pointCloudInput robotPoseCovariance pointCloudOutput
          variances).2.pointCloudOutput = pointCloudOutput
      ∧ (process A hooks tl self pointCloudInput robotPoseCovariance pointCloudOutput
          variances).2.variances = variances
      ∧ ((process A hooks tl self pointCloudInput robotPoseCovariance pointCloudOutput
          variances).2.calls.all fun c =>
            !c.isTransformPointCloud && !c.isComputeVariances) = true := by
  have hc := updateTransformations_calls_listener_only tl self
    (cleanedCloud hooks pointCloudInput).header.frame_id (captureTime hooks pointCloudInput)
  rw [process_of_update_fails A hooks tl self pointCloudInput robotPoseCovariance
    pointCloudOutput variances h]
  refine ⟨rfl, rfl, rfl, ?_⟩
  rw [List.all_cons, hc]
  rfl

/-- C1, at a pose source without data. -/
theorem process_aborts_on_transform_failure_witness :
    (updateTransformations silentListener sampleProcessor
        (cleanedCloud sampleHooks (onePointCloud 7)).header.frame_id
        (captureTime sampleHooks (onePointCloud 7))).1 = false
      ∧ (process Arith.exact sampleHooks silentListener sampleProcessor (onePointCloud 7) 0
          (PointCloud.new Arith.exact) [4]).2.variances = [4] :=
  ⟨rfl, (process_aborts_on_transform_failure Arith.exact sampleHooks silentListener
    sampleProcessor (onePointCloud 7) 0 (PointCloud.new Arith.exact) [4] rfl).2.2.1⟩

/-- C2, as stated, fails: when the three lookups succeed and `computeVariances` returns
`false`, `process` returns `false` and the output cloud of the caller has been overwritten. -/
theorem process_overwrites_output_when_variances_fail :
    (process Arith.exact failingVarianceHooks staticListener sampleProcessor (onePointCloud 7) 0
        (PointCloud.new Arith.exact) []).1 = false
      ∧ (process Arith.exact failingVarianceHooks staticListener sampleProcessor
          (onePointCloud 7) 0 (PointCloud.new Arith.exact) []).2.pointCloudOutput
        ≠ PointCloud.new Arith.exact := by
  refine ⟨rfl, fun h => ?_⟩
  have h2 := congrArg (fun c => c.header.frame_id) h
  revert h2
  decide

/-- C2, amended: when `process` returns `false`, either `updateTransformations` failed and the
output cloud of the caller is unchanged, or `updateTransformations` succeeded, `computeVariances`
returned `false`, and the output cloud is the transformed cleaned cloud tagged with the map
frame. -/
theorem process_failure_output_cloud (A : Arith S) (hooks : Hooks S)
    (tl : TransformListener S)
    (self : SensorProcessorBase S) (pointCloudInput : PointCloud S)
    (robotPoseCovariance : PoseCovariance S) (pointCloudOutput : PointCloud S)
    (variances : Variances S)
    (h : (process A hooks tl self pointCloudInput robotPoseCovariance pointCloudOutput
      variances).1 = false) :
    ((updateTransformations tl self (cleanedCloud hooks pointCloudInput).header.frame_id
          (captureTime hooks pointCloudInput)).1 = false
        ∧ (process A hooks tl self pointCloudInput robotPoseCovariance pointCloudOutput
            variances).2.pointCloudOutput = pointCloudOutput)
    ∨ ((updateTransformations tl self (cleanedCloud hooks pointCloudInput).header.frame_id
          (captureTime hooks pointCloudInput)).1 = true
        ∧ (hooks.computeVariances
            (updateTransformations tl self (cleanedCloud hooks pointCloudInput).header.frame_id
              (captureTime hooks pointCloudInput)).2.1
            (cleanedCloud hooks pointCloudInput) robotPoseCovariance variances).1 = false
        ∧ (process A hooks tl self pointCloudInput robotPoseCovariance pointCloudOutput
            variances).2.pointCloudOutput
          = (transformPointCloud A
              (updateTransformations tl self (cleanedCloud hooks pointCloudInput).header.frame_id
                (captureTime hooks pointCloudInput)).2.1
              (cleanedCloud hooks pointCloudInput) pointCloudOutput self.mapFrameId_).2.2) := by
  cases hu : (updateTransformations tl self (cleanedCloud hooks pointCloudInput).header.frame_id
      (captureTime hooks pointCloudInput)).1 with
  | false =>
    left
    rw [process_of_update_fails A hooks tl self pointCloudInput robotPoseCovariance
      pointCloudOutput variances hu]
    exact ⟨rfl, rfl⟩
  | true =>
    right
    rw [process_of_update_succeeds A hooks tl self pointCloudInput robotPoseCovariance
      pointCloudOutput variances hu] at h ⊢
    exact ⟨rfl, h, rfl⟩

/-- C2 amended, at a sensor model whose variance computation fails: the output cloud is
tagged with the map frame. -/
theorem process_failure_output_cloud_witness :
    (process Arith.exact failingVarianceHooks staticListener sampleProcessor (onePointCloud 7) 0
        (PointCloud.new Arith.exact) []).1 = false
      ∧ (process Arith.exact failingVarianceHooks staticListener sampleProcessor
          (onePointCloud 7) 0 (PointCloud.new Arith.exact) []).2.pointCloudOutput.header.frame_id
        = "map" :=
  ⟨rfl, (process_failure_output_cloud Arith.exact failingVarianceHooks staticListener
    sampleProcessor (onePointCloud 7) 0 (PointCloud.new Arith.exact) [] rfl).elim
      (fun h => absurd h.1 (by decide))
      (fun h => by rw [h.2.2]; rfl)⟩

/-- C3, as stated, fails: when the first lookup succeeds and the second throws,
`updateTransformations` returns `false` and `transformationSensorToMap_` has a new value. -/
theorem updateTransformations_not_atomic :
    (updateTransformations sensorOnlyListener sampleProcessor "sensor" ⟨0⟩).1 = false
      ∧ (updateTransformations sensorOnlyListener sampleProcessor "sensor"
          ⟨0⟩).2.1.transformationSensorToMap_
        ≠ sampleProcessor.transformationSensorToMap_ := by
  refine ⟨rfl, fun h => ?_⟩
  have h2 := congrArg (fun T => T.translation.x) h
  have h3 : (1 : ℚ) = 0 := h2
  exact one_ne_zero h3

/-- C3, amended: when `updateTransformations` returns `false`, the cached outputs written
before the failing lookup have their new values and the others are unchanged: nothing is written
when the first lookup fails; `transformationSensorToMap_` is written when the second fails;
`transformationSensorToMap_`, `rotationBaseToSensor_` and
`translationBaseToSensorInBaseFrame_` are written when the third fails. -/
theorem updateTransformations_failure_state (tl : TransformListener S)
    (self : SensorProcessorBase S) (sensorFrameId : String) (timeStamp : Time)
    (h : (updateTransformations tl self sensorFrameId timeStamp).1 = false) :
    (tl.lookupTransform self.mapFrameId_ sensorFrameId timeStamp = none
        ∧ (updateTransformations tl self sensorFrameId timeStamp).2.1 = self)
    ∨ (∃ t1, tl.lookupTransform self.mapFrameId_ sensorFrameId timeStamp = some t1
        ∧ tl.lookupTransform self.baseFrameId_ sensorFrameId timeStamp = none
        ∧ (updateTransformations tl self sensorFrameId timeStamp).2.1
          = { self with transformationSensorToMap_ := poseTFToEigen t1 })
    ∨ (∃ t1 t2, tl.lookupTransform self.mapFrameId_ sensorFrameId timeStamp = some t1
        ∧ tl.lookupTransform self.baseFrameId_ sensorFrameId timeStamp = some t2
        ∧ tl.lookupTransform self.mapFrameId_ self.baseFrameId_ timeStamp = none
        ∧ (updateTransformations tl self sensorFrameId timeStamp).2.1
          = { self with
              transformationSensorToMap_ := poseTFToEigen t1
              rotationBaseToSensor_ := t2.basis
              translationBaseToSensorInBaseFrame_ := t2.origin }) := by
  rcases updateTransformations_cases tl self sensorFrameId timeStamp with
    ⟨h1, hu⟩ | ⟨t1, h1, h2, hu⟩ | ⟨t1, t2, h1, h2, h3, hu⟩ | ⟨t1, t2, t3, h1, h2, h3, hu⟩
  · exact Or.inl ⟨h1, by rw [hu]⟩
  · exact Or.inr (Or.inl ⟨t1, h1, h2, by rw [hu]⟩)
  · exact Or.inr (Or.inr ⟨t1, t2, h1, h2, h3, by rw [hu]⟩)
  · rw [hu] at h
    exact absurd h (by simp)

/-- C3 amended, at a pose source that only knows the sensor-to-map transform: the cached
map-to-base rotation is unchanged. -/
theorem updateTransformations_failure_state_witness :
    (updateTransformations sensorOnlyListener sampleProcessor "sensor" ⟨0⟩).1 = false
      ∧ (updateTransformations sensorOnlyListener sampleProcessor "sensor"
          ⟨0⟩).2.1.rotationMapToBase_ = sampleProcessor.rotationMapToBase_ :=
  ⟨rfl, (updateTransformations_failure_state sensorOnlyListener sampleProcessor "sensor" ⟨0⟩
    rfl).elim (fun h => by rw [h.2])
      (fun h => h.elim (fun ⟨_, _, _, e⟩ => by rw [e]) (fun ⟨_, _, _, _, _, e⟩ => by rw [e]))⟩

/-- C4: `process` returns `true` exactly when `updateTransformations`, `transformPointCloud`
and `computeVariances` return `true`; the members are called in that order and the run stops at
the first failure; on success the output cloud is the cleaned copy of the input transformed by
the sensor-to-map transform looked up in this call (target the map frame, source the frame tag
of the cleaned cloud) and tagged with the map frame, and `computeVariances` was given the
cleaned cloud, not transformed, and the pose covariance of the caller. -/
theorem process_succeeds_iff (A : Arith S) (hooks : Hooks S)
    (tl : TransformListener S)
    (self : SensorProcessorBase S) (pointCloudInput : PointCloud S)
    (robotPoseCovariance : PoseCovariance S) (pointCloudOutput : PointCloud S)
    (variances : Variances S) :
    ((process A hooks tl self pointCloudInput robotPoseCovariance pointCloudOutput variances).1
        = true
      ↔ (updateTransformations tl self (hooks.cleanPointCloud pointCloudInput).2.header.frame_id
            (Time.fromNSec
              (stampTimesThousand (hooks.cleanPointCloud pointCloudInput).2.header.stamp))).1
          = true
        ∧ (transformPointCloud A
            (updateTransformations tl self
              (hooks.cleanPointCloud pointCloudInput).2.header.frame_id
              (Time.fromNSec
                (stampTimesThousand (hooks.cleanPointCloud pointCloudInput).2.header.stamp))).2.1
            (hooks.cleanPointCloud pointCloudInput).2 pointCloudOutput self.mapFrameId_).1 = true
        ∧ (hooks.computeVariances
            (updateTransformations tl self
              (hooks.cleanPointCloud pointCloudInput).2.header.frame_id
              (Time.fromNSec
                (stampTimesThousand (hooks.cleanPointCloud pointCloudInput).2.header.stamp))).2.1
            (hooks.cleanPointCloud pointCloudInput).2 robotPoseCovariance variances).1 = true)
    ∧ (process A hooks tl self pointCloudInput robotPoseCovariance pointCloudOutput
          variances).2.calls
        = Call.cleanPointCloud pointCloudInput
          :: (updateTransformations tl self
                (hooks.cleanPointCloud pointCloudInput).2.header.frame_id
                (Time.fromNSec
                  (stampTimesThousand
                    (hooks.cleanPointCloud pointCloudInput).2.header.stamp))).2.2
          ++ (if (updateTransformations tl self
                (hooks.cleanPointCloud pointCloudInput).2.header.frame_id
                (Time.fromNSec
                  (stampTimesThousand
                    (hooks.cleanPointCloud pointCloudInput).2.header.stamp))).1 = true
              then [Call.transformPointCloud (hooks.cleanPointCloud pointCloudInput).2
                      self.mapFrameId_,
                    Call.computeVariances (hooks.cleanPointCloud pointCloudInput).2
                      robotPoseCovariance]
              else [])
    ∧ ((process A hooks tl self pointCloudInput robotPoseCovariance pointCloudOutput
          variances).1 = true →
        ∃ transformTf,
          tl.lookupTransform self.mapFrameId_
              (hooks.cleanPointCloud pointCloudInput).2.header.frame_id
              (Time.fromNSec
                (stampTimesThousand (hooks.cleanPointCloud pointCloudInput).2.header.stamp))
            = some transformTf
          ∧ (process A hooks tl self pointCloudInput robotPoseCovariance pointCloudOutput
              variances).2.pointCloudOutput
            = { (pcl_transformPointCloud A (hooks.cleanPointCloud pointCloudInput).2
                  pointCloudOutput ((poseTFToEigen transformTf).cast A)).2 with
                header :=
                  { (hooks.cleanPointCloud pointCloudInput).2.header with
                    frame_id := self.mapFrameId_ } }
          ∧ (process A hooks tl self pointCloudInput robotPoseCovariance pointCloudOutput
              variances).2.pointCloudOutput.points
            = (hooks.cleanPointCloud pointCloudInput).2.points.map (fun pt =>
                if (hooks.cleanPointCloud pointCloudInput).2.is_dense = true
                    ∨ (A.isfinite pt.x = true ∧ A.isfinite pt.y = true
                      ∧ A.isfinite pt.z = true)
                then pcl_transformPoint A ((poseTFToEigen transformTf).cast A) pt
                else pt)
          ∧ (process A hooks tl self pointCloudInput robotPoseCovariance pointCloudOutput
              variances).2.pointCloudOutput.header
            = { (hooks.cleanPointCloud pointCloudInput).2.header with
                frame_id := self.mapFrameId_ }
          ∧ (process A hooks tl self pointCloudInput robotPoseCovariance pointCloudOutput
              variances).2.calls.getLast?
            = some (Call.computeVariances (hooks.cleanPointCloud pointCloudInput).2
                robotPoseCovariance)
          ∧ (process A hooks tl self pointCloudInput robotPoseCovariance pointCloudOutput
              variances).2.variances
            = (hooks.computeVariances
                (updateTransformations tl self
                  (hooks.cleanPointCloud pointCloudInput).2.header.frame_id
                  (Time.fromNSec
                    (stampTimesThousand
                      (hooks.cleanPointCloud pointCloudInput).2.header.stamp))).2.1
                (hooks.cleanPointCloud pointCloudInput).2 robotPoseCovariance variances).2) := by
  have hcl : (hooks.cleanPointCloud pointCloudInput).2 = cleanedCloud hooks pointCloudInput :=
    rfl
  have hct : Time.fromNSec
      (stampTimesThousand (hooks.cleanPointCloud pointCloudInput).2.header.stamp)
      = captureTime hooks pointCloudInput := rfl
  rw [hct, hcl]
  cases hu : (updateTransformations tl self (cleanedCloud hooks pointCloudInput).header.frame_id
      (captureTime hooks pointCloudInput)).1 with
  | false =>
    rw [process_of_update_fails A hooks tl self pointCloudInput robotPoseCovariance
      pointCloudOutput variances hu]
    simp
  | true =>
    rw [process_of_update_succeeds A hooks tl self pointCloudInput robotPoseCovariance
      pointCloudOutput variances hu]
    refine ⟨by simp [transformPointCloud_flag], by simp, fun _ => ?_⟩
    rcases updateTransformations_cases tl self
        (cleanedCloud hooks pointCloudInput).header.frame_id
        (captureTime hooks pointCloudInput) with
      ⟨_, e⟩ | ⟨_, _, _, e⟩ | ⟨_, _, _, _, _, e⟩ | ⟨t1, t2, t3, h1, h2, h3, e⟩
    · rw [e] at hu; exact absurd hu (by simp)
    · rw [e] at hu; exact absurd hu (by simp)
    · rw [e] at hu; exact absurd hu (by simp)
    · refine ⟨t1, h1, ?_, ?_, ?_, ?_, rfl⟩
      · rw [e]
        simp [transformPointCloud, pcl_transformPointCloud_header]
      · rw [transformPointCloud_points, e]
      · rw [transformPointCloud_header]
      · rw [e]
        simp [listenerCalls]

/-- C4, at a pose source that answers every lookup with the translation by `(1, 0, 0)`: for
the input cloud with the one point `(1, 2, 3)` in frame `sensor`, `process` returns `true` and
the output cloud holds the one point `(2, 2, 3)`, with the colour and the time stamp of the
input and the frame tag `map`. -/
theorem process_succeeds_iff_witness :
    (process Arith.exact sampleHooks staticListener sampleProcessor (onePointCloud 7) 0
        (PointCloud.new Arith.exact) []).1 = true
      ∧ (process Arith.exact sampleHooks staticListener sampleProcessor (onePointCloud 7) 0
          (PointCloud.new Arith.exact) []).2.pointCloudOutput.points = [⟨2, 2, 3, 255⟩]
      ∧ (process Arith.exact sampleHooks staticListener sampleProcessor (onePointCloud 7) 0
          (PointCloud.new Arith.exact) []).2.pointCloudOutput.header = ⟨0, 7, "map"⟩ := by
  have h := process_succeeds_iff Arith.exact sampleHooks staticListener sampleProcessor
    (onePointCloud 7) 0 (PointCloud.new Arith.exact) []
  have ht : (process Arith.exact sampleHooks staticListener sampleProcessor (onePointCloud 7) 0
      (PointCloud.new Arith.exact) []).1 = true := rfl
  obtain ⟨t, hl, -, hp, hh, -, -⟩ := h.2.2 ht
  have e : t = shiftTransform "map" "sensor" ⟨stampTimesThousand 7⟩ :=
    (Option.some.inj hl).symm
  refine ⟨ht, ?_, ?_⟩
  · rw [hp, e]
    simp [sampleHooks, onePointCloud, shiftTransform, poseTFToEigen, Affine3d.cast,
      pcl_transformPoint, Arith.exact]
    norm_num
  · rw [hh]
    rfl

/-- C5, as stated, fails: on a pose source without data `process` returns `false` for the
empty cloud. -/
theorem empty_cloud_without_transforms_fails :
    emptyCloud.points = []
      ∧ (process Arith.exact sampleHooks silentListener sampleProcessor emptyCloud 0
          (PointCloud.new Arith.exact) []).1 = false :=
  ⟨rfl, rfl⟩

/-- C5, amended: for an empty input cloud, when cleaning only removes points, the three lookups
succeed and `computeVariances` returns `true` with one variance per point of the cleaned cloud,
`process` returns `true` with an empty output cloud and an empty variance vector. -/
theorem process_empty_cloud (A : Arith S) (hooks : Hooks S)
    (tl : TransformListener S)
    (self : SensorProcessorBase S) (pointCloudInput : PointCloud S)
    (robotPoseCovariance : PoseCovariance S) (pointCloudOutput : PointCloud S)
    (variances : Variances S)
    (hin : pointCloudInput.points = [])
    (hsub : (cleanedCloud hooks pointCloudInput).points.Sublist pointCloudInput.points)
    (hu : (updateTransformations tl self (cleanedCloud hooks pointCloudInput).header.frame_id
      (captureTime hooks pointCloudInput)).1 = true)
    (hv : (hooks.computeVariances
      (updateTransformations tl self (cleanedCloud hooks pointCloudInput).header.frame_id
        (captureTime hooks pointCloudInput)).2.1
      (cleanedCloud hooks pointCloudInput) robotPoseCovariance variances).1 = true)
    (hlen : (hooks.computeVariances
      (updateTransformations tl self (cleanedCloud hooks pointCloudInput).header.frame_id
        (captureTime hooks pointCloudInput)).2.1
      (cleanedCloud hooks pointCloudInput) robotPoseCovariance variances).2.length
        = (cleanedCloud hooks pointCloudInput).points.length) :
    (process A hooks tl self pointCloudInput robotPoseCovariance pointCloudOutput variances).1
        = true
      ∧ (process A hooks tl self pointCloudInput robotPoseCovariance pointCloudOutput
          variances).2.pointCloudOutput.points = []
      ∧ (process A hooks tl self pointCloudInput robotPoseCovariance pointCloudOutput
          variances).2.variances = [] := by
  have hclean : (cleanedCloud hooks pointCloudInput).points = [] := by
    rw [hin] at hsub
    exact List.sublist_nil.mp hsub
  rw [process_of_update_succeeds A hooks tl self pointCloudInput robotPoseCovariance
    pointCloudOutput variances hu]
  refine ⟨hv, ?_, ?_⟩
  · exact transformPointCloud_points_nil A _ _ _ _ hclean
  · rw [hclean] at hlen
    exact List.length_eq_zero.mp hlen

/-- C5 amended, at a pose source that answers every lookup. -/
theorem process_empty_cloud_witness :
    emptyCloud.points = []
      ∧ (process Arith.exact sampleHooks staticListener sampleProcessor emptyCloud 0
          (PointCloud.new Arith.exact) [4]).1 = true
      ∧ (process Arith.exact sampleHooks staticListener sampleProcessor emptyCloud 0
          (PointCloud.new Arith.exact) [4]).2.variances = [] :=
  ⟨rfl, (process_empty_cloud Arith.exact sampleHooks staticListener sampleProcessor emptyCloud 0
      (PointCloud.new Arith.exact) [4] rfl (List.Sublist.refl _) rfl rfl rfl).1,
    (process_empty_cloud Arith.exact sampleHooks staticListener sampleProcessor emptyCloud 0
      (PointCloud.new Arith.exact) [4] rfl (List.Sublist.refl _) rfl rfl rfl).2.2⟩

/-! ## Claims on `transformPointCloud` -/

/-! ## Claims on `transformPointCloud` -/

/-- The position written by one loop iteration in exact arithmetic, as a matrix product. -/
theorem pcl_transformPoint_position (T : Affine3d ℚ) (p : PointXYZRGB ℚ) :
    (pcl_transformPoint Arith.exact T p).position
      = T.linear.toMatrix.mulVec p.position + T.translation.toVector := by
  funext i
  fin_cases i <;>
    simp [pcl_transformPoint, PointXYZRGB.position, Mat3.toMatrix, Vec3.toVector, Arith.exact,
      Matrix.mulVec, Matrix.dotProduct, Fin.sum_univ_three, Matrix.vecHead, Matrix.vecTail] <;>
    ring

/-- C6, as stated, fails in the single precision arithmetic of the code. With the cached
translation by `(1, 0, 0)`, the point `(2 ^ 24, 0, 0)` of a dense cloud is written with the
first coordinate `2 ^ 24 = 16777216`, where `R * p + t` has `16777217`. With the cached half
turn about the vertical axis, the point `(+inf, 0, 0)` of a cloud that is not dense is written
unchanged, where the first coordinate of `R * p + t` is `-inf`. -/
theorem transformPointCloud_rounds_and_skips :
    ((transformPointCloud Arith.binary32 shiftProcessor farPointCloud
          (PointCloud.new Arith.binary32) "map").2.2.points.map fun q => q.x.toRat)
        = [some 16777216]
      ∧ (farPointCloud.points.map fun p => (p.x.toRat, p.y.toRat, p.z.toRat))
        = [(some 16777216, some 0, some 0)]
      ∧ (16777216 : ℚ) ≠ 1 * 16777216 + 0 * 0 + 0 * 0 + 1
      ∧ (transformPointCloud Arith.binary32 halfTurnProcessor unboundedPointCloud
          (PointCloud.new Arith.binary32) "map").2.2.points.map (fun q => q.x)
        = [Fp.inf false]
      ∧ (unboundedPointCloud.points.map fun p =>
          Fp.add32 (Fp.add32 (Fp.add32 (Fp.mul32 (Fp.finite (-1) 0) p.x)
            (Fp.mul32 (Fp.finite 0 0) p.y)) (Fp.mul32 (Fp.finite 0 0) p.z)) (Fp.finite 0 0))
        = [Fp.inf true] := by
  refine ⟨?_, ?_, by norm_num, rfl, rfl⟩
  · have h : (transformPointCloud Arith.binary32 shiftProcessor farPointCloud
        (PointCloud.new Arith.binary32) "map").2.2.points.map (fun q => q.x)
        = [Fp.finite 1 24] := rfl
    have h2 := congrArg (List.map Fp.toRat) h
    rw [List.map_map] at h2
    rw [show (fun q : PointXYZRGB Fp => q.x.toRat) = Fp.toRat ∘ fun q => q.x from rfl, h2]
    norm_num [Fp.toRat]
  · norm_num [farPointCloud, Fp.toRat]

/-- C6, amended: `transformPointCloud` leaves the input cloud as it was and writes a cloud with
as many points, in the same order; output point `i` has the colour of input point `i`; its
position is `R * p_i + t` evaluated in the arithmetic of the code, for `(R, t)` the cached
sensor-to-map transform converted to `float`: each coordinate is
`((r0 * x + r1 * y) + r2 * z) + t`, every product and sum in `float`; in a cloud that is not
dense, a point with a coordinate that is not finite is written unchanged. In exact arithmetic
that position is `R * p_i + t`. -/
theorem transformPointCloud_pointwise (A : Arith S) (self : SensorProcessorBase S)
    (pointCloud pointCloudTransformed : PointCloud S) (targetFrame : String)
    (selfQ : SensorProcessorBase ℚ) (cloudQ outQ : PointCloud ℚ) :
    (transformPointCloud A self pointCloud pointCloudTransformed targetFrame).2.1 = pointCloud
      ∧ (transformPointCloud A self pointCloud pointCloudTransformed
          targetFrame).2.2.points.length = pointCloud.points.length
      ∧ (∀ (i : Nat) (p : PointXYZRGB S), pointCloud.points[i]? = some p →
          ∃ q, (transformPointCloud A self pointCloud pointCloudTransformed
                  targetFrame).2.2.points[i]? = some q
            ∧ q.rgb = p.rgb
            ∧ ((pointCloud.is_dense = true
                  ∨ (A.isfinite p.x = true ∧ A.isfinite p.y = true ∧ A.isfinite p.z = true)) →
                q.x = A.add (A.add (A.add
                        (A.mul (A.cast self.transformationSensorToMap_.linear.m00) p.x)
                        (A.mul (A.cast self.transformationSensorToMap_.linear.m01) p.y))
                        (A.mul (A.cast self.transformationSensorToMap_.linear.m02) p.z))
                        (A.cast self.transformationSensorToMap_.translation.x)
                ∧ q.y = A.add (A.add (A.add
                        (A.mul (A.cast self.transformationSensorToMap_.linear.m10) p.x)
                        (A.mul (A.cast self.transformationSensorToMap_.linear.m11) p.y))
                        (A.mul (A.cast self.transformationSensorToMap_.linear.m12) p.z))
                        (A.cast self.transformationSensorToMap_.translation.y)
                ∧ q.z = A.add (A.add (A.add
                        (A.mul (A.cast self.transformationSensorToMap_.linear.m20) p.x)
                        (A.mul (A.cast self.transformationSensorToMap_.linear.m21) p.y))
                        (A.mul (A.cast self.transformationSensorToMap_.linear.m22) p.z))
                        (A.cast self.transformationSensorToMap_.translation.z))
            ∧ (¬ (pointCloud.is_dense = true
                  ∨ (A.isfinite p.x = true ∧ A.isfinite p.y = true ∧ A.isfinite p.z = true)) →
                q = p))
      ∧ (∀ (i : Nat) (p : PointXYZRGB ℚ), cloudQ.points[i]? = some p →
          ∃ q, (transformPointCloud Arith.exact selfQ cloudQ outQ targetFrame).2.2.points[i]?
                = some q
            ∧ q.position
              = selfQ.transformationSensorToMap_.linear.toMatrix.mulVec p.position
                + selfQ.transformationSensorToMap_.translation.toVector
            ∧ q.rgb = p.rgb) := by
  refine ⟨transformPointCloud_input A self pointCloud pointCloudTransformed targetFrame, ?_,
    ?_, ?_⟩
  · rw [transformPointCloud_points, List.length_map]
  · intro i p hp
    rw [transformPointCloud_points, List.getElem?_map, hp]
    by_cases hc : pointCloud.is_dense = true
        ∨ (A.isfinite p.x = true ∧ A.isfinite p.y = true ∧ A.isfinite p.z = true)
    · exact ⟨pcl_transformPoint A (self.transformationSensorToMap_.cast A) p,
        congrArg some (if_pos hc), rfl,
        fun _ => ⟨rfl, rfl, rfl⟩, fun hn => absurd hc hn⟩
    · exact ⟨p, congrArg some (if_neg hc), rfl,
        fun h => absurd h hc, fun _ => rfl⟩
  · intro i p hp
    refine ⟨pcl_transformPoint Arith.exact selfQ.transformationSensorToMap_ p, ?_,
      pcl_transformPoint_position _ p, rfl⟩
    rw [transformPointCloud_points_exact, List.getElem?_map, hp]
    rfl

/-- C6 amended, in single precision, at the translation by `(1, 0, 0)` and the point
`(2 ^ 24, 0, 0)`: the output cloud has a first point, with the colour of the input point and
the first coordinate `2 ^ 24`. -/
theorem transformPointCloud_pointwise_witness :
    farPointCloud.points[0]? = some ⟨Fp.finite 1 24, Fp.finite 0 0, Fp.finite 0 0, 255⟩
      ∧ ∃ q, (transformPointCloud Arith.binary32 shiftProcessor farPointCloud
                (PointCloud.new Arith.binary32) "map").2.2.points[0]? = some q
          ∧ q.rgb = 255 ∧ q.x = Fp.finite 1 24 :=
  ⟨rfl, ((transformPointCloud_pointwise Arith.binary32 shiftProcessor farPointCloud
      (PointCloud.new Arith.binary32) "map" sampleProcessor emptyCloud emptyCloud).2.2.1 0
      ⟨Fp.finite 1 24, Fp.finite 0 0, Fp.finite 0 0, 255⟩ rfl).elim
    fun q h => ⟨q, h.1, h.2.1, (h.2.2.1 (Or.inl rfl)).1⟩⟩

/-- C7: `transformPointCloud` returns `true`, tags the output cloud with `targetFrame`, keeps
the time stamp of the input cloud, and writes no point when the input cloud has none. -/
theorem transformPointCloud_tags (A : Arith S) (self : SensorProcessorBase S)
    (pointCloud pointCloudTransformed : PointCloud S) (targetFrame : String) :
    (transformPointCloud A self pointCloud pointCloudTransformed targetFrame).1 = true
      ∧ (transformPointCloud A self pointCloud pointCloudTransformed
          targetFrame).2.2.header.frame_id = targetFrame
      ∧ (transformPointCloud A self pointCloud pointCloudTransformed
          targetFrame).2.2.header.stamp = pointCloud.header.stamp
      ∧ (pointCloud.points = [] →
          (transformPointCloud A self pointCloud pointCloudTransformed
            targetFrame).2.2.points = []) := by
  refine ⟨rfl, ?_, ?_, fun h => ?_⟩
  · rw [transformPointCloud_header]
  · rw [transformPointCloud_header]
  · exact transformPointCloud_points_nil A _ _ _ _ h

/-- C7, at the cloud without points written over a cloud with one point. -/
theorem transformPointCloud_tags_witness :
    emptyCloud.points = []
      ∧ (transformPointCloud Arith.exact sampleProcessor emptyCloud (onePointCloud 7)
          "map").2.2.points = [] :=
  ⟨rfl, (transformPointCloud_tags Arith.exact sampleProcessor emptyCloud (onePointCloud 7)
    "map").2.2.2 rfl⟩

/-- A rigid transform followed by its inverse gives each point back, in exact arithmetic. -/
theorem pcl_transformPoint_inverseRigid (T : Affine3d ℚ)
    (h : T.linear.toMatrix.transpose * T.linear.toMatrix = 1) (p : PointXYZRGB ℚ) :
    pcl_transformPoint Arith.exact (inverseRigid T) (pcl_transformPoint Arith.exact T p) = p := by
  have e : ∀ i j, (T.linear.toMatrix.transpose * T.linear.toMatrix) i j
      = (1 : Matrix (Fin 3) (Fin 3) ℚ) i j := fun i j => by rw [h]
  have h00 := e 0 0
  have h01 := e 0 1
  have h02 := e 0 2
  have h10 := e 1 0
  have h11 := e 1 1
  have h12 := e 1 2
  have h20 := e 2 0
  have h21 := e 2 1
  have h22 := e 2 2
  simp [Matrix.mul_apply, Fin.sum_univ_three, Mat3.toMatrix, Matrix.transpose_apply,
    Matrix.vecHead, Matrix.vecTail] at h00 h01 h02 h10 h11 h12 h20 h21 h22
  obtain ⟨⟨a, b, c, d, e, f, g, k, l⟩, ⟨u, v, w⟩⟩ := T
  obtain ⟨x, y, z, rgb⟩ := p
  simp only [pcl_transformPoint, inverseRigid, Mat3.transpose, Mat3.mulVec, Vec3.neg,
    Arith.exact, PointXYZRGB.mk.injEq, and_true] at *
  refine ⟨?_, ?_, ?_⟩
  · linear_combination x * h00 + y * h01 + z * h02
  · linear_combination x * h10 + y * h11 + z * h12
  · linear_combination x * h20 + y * h21 + z * h22

/-- The identity transform gives each point back, in exact arithmetic. -/
theorem pcl_transformPoint_identity (p : PointXYZRGB ℚ) :
    pcl_transformPoint Arith.exact ⟨⟨1, 0, 0, 0, 1, 0, 0, 0, 1⟩, ⟨0, 0, 0⟩⟩ p = p := by
  obtain ⟨x, y, z, rgb⟩ := p
  simp [pcl_transformPoint, Arith.exact]

/-- C8: in exact arithmetic, for a rigid transform `T = (R, t)` with `R` orthonormal,
`transformPointCloud` with cached transform `T` followed by `transformPointCloud` with cached
transform `(R^T, -R^T t)` gives back the points of the cloud (positions, colours, number and
order); and with the identity, which the constructor installs, one application gives back the
points. -/
theorem transformPointCloud_inverse (self self2 : SensorProcessorBase ℚ) (T : Affine3d ℚ)
    (pointCloud out1 out2 : PointCloud ℚ) (frame1 frame2 : String)
    (h : T.linear.toMatrix.transpose * T.linear.toMatrix = 1) :
    (transformPointCloud Arith.exact
        { self2 with transformationSensorToMap_ := inverseRigid T }
        (transformPointCloud Arith.exact { self with transformationSensorToMap_ := T }
          pointCloud out1 frame1).2.2 out2 frame2).2.2.points = pointCloud.points
      ∧ (SensorProcessorBase.new Arith.exact).transformationSensorToMap_
        = ⟨⟨1, 0, 0, 0, 1, 0, 0, 0, 1⟩, ⟨0, 0, 0⟩⟩
      ∧ (transformPointCloud Arith.exact (SensorProcessorBase.new Arith.exact) pointCloud out1
          frame1).2.2.points = pointCloud.points := by
  refine ⟨?_, rfl, ?_⟩
  · rw [transformPointCloud_points_exact, transformPointCloud_points_exact, List.map_map]
    conv_rhs => rw [← List.map_id pointCloud.points]
    exact List.map_congr_left fun p _ => pcl_transformPoint_inverseRigid T h p
  · rw [transformPointCloud_points_exact]
    conv_rhs => rw [← List.map_id pointCloud.points]
    exact List.map_congr_left fun p _ => pcl_transformPoint_identity p

/-- C8, at a quarter turn about the vertical axis followed by a translation. -/
theorem transformPointCloud_inverse_witness :
    quarterTurn.linear.toMatrix.transpose * quarterTurn.linear.toMatrix = 1
      ∧ (transformPointCloud Arith.exact
          { sampleProcessor with transformationSensorToMap_ := inverseRigid quarterTurn }
          (transformPointCloud Arith.exact
            { sampleProcessor with transformationSensorToMap_ := quarterTurn }
            (onePointCloud 7) (PointCloud.new Arith.exact) "map").2.2
          (PointCloud.new Arith.exact) "sensor").2.2.points
        = (onePointCloud 7).points :=
  have hq : quarterTurn.linear.toMatrix.transpose * quarterTurn.linear.toMatrix = 1 := by
    ext i j
    fin_cases i <;> fin_cases j <;>
      simp [quarterTurn, Mat3.toMatrix, Matrix.mul_apply, Fin.sum_univ_three,
        Matrix.vecHead, Matrix.vecTail]
  ⟨hq, (transformPointCloud_inverse sampleProcessor sampleProcessor quarterTurn
    (onePointCloud 7) (PointCloud.new Arith.exact) (PointCloud.new Arith.exact) "map" "sensor"
    hq).1⟩

/-! ## Claims on the capture time and on waiting -/

/-- Below `2 ^ 53` the conversion to `double` is exact. -/
theorem roundToDouble_small (n : Nat) (h : n < 2 ^ 53) : roundToDouble n = n := by
  unfold roundToDouble
  rw [if_pos h]

/-- The capture time in nanoseconds is exact as long as it is below `2 ^ 53`. -/
theorem stampTimesThousand_exact (stamp : Nat) (h : 1000 * stamp < 2 ^ 53) :
    stampTimesThousand stamp = 1000 * stamp := by
  have hs : stamp < 2 ^ 53 := by omega
  rw [stampTimesThousand, roundToDouble_small stamp hs, roundToDouble_small _ h]

/-- Every listener call of `updateTransformations` is made at the time stamp it is given. -/
theorem updateTransformations_times (tl : TransformListener S)
    (self : SensorProcessorBase S) (sensorFrameId : String) (timeStamp : Time) :
    ∀ t ∈ (updateTransformations tl self sensorFrameId timeStamp).2.2.filterMap Call.time?,
      t = timeStamp := by
  rcases updateTransformations_cases tl self sensorFrameId timeStamp with
    ⟨_, h⟩ | ⟨_, _, _, h⟩ | ⟨_, _, _, _, _, h⟩ | ⟨_, _, _, _, _, _, h⟩ <;> rw [h] <;>
    simp [listenerCalls, Call.time?]

/-- Every listener call of `process` is made at one time stamp, the local `timeStamp`. -/
theorem process_times (A : Arith S) (hooks : Hooks S)
    (tl : TransformListener S)
    (self : SensorProcessorBase S) (pointCloudInput : PointCloud S)
    (robotPoseCovariance : PoseCovariance S) (pointCloudOutput : PointCloud S)
    (variances : Variances S) :
    ∀ t ∈ (process A hooks tl self pointCloudInput robotPoseCovariance pointCloudOutput
        variances).2.calls.filterMap Call.time?,
      t = captureTime hooks pointCloudInput := by
  have ht := updateTransformations_times tl self
    (cleanedCloud hooks pointCloudInput).header.frame_id (captureTime hooks pointCloudInput)
  cases hu : (updateTransformations tl self (cleanedCloud hooks pointCloudInput).header.frame_id
      (captureTime hooks pointCloudInput)).1 with
  | false =>
    rw [process_of_update_fails A hooks tl self pointCloudInput robotPoseCovariance
      pointCloudOutput variances hu]
    simpa [Call.time?] using ht
  | true =>
    rw [process_of_update_succeeds A hooks tl self pointCloudInput robotPoseCovariance
      pointCloudOutput variances hu]
    simpa [Call.time?, List.filterMap_append] using ht

/-- C9 at a cloud stamped 1402041600000001 microseconds: the wait and the three lookups of
`process` are made at 1402041600000001024 nanoseconds, not at 1402041600000001000. -/
theorem process_capture_time_rounded :
    (process Arith.exact sampleHooks staticListener sampleProcessor
        (onePointCloud 1402041600000001) 0 (PointCloud.new Arith.exact) []).2.calls.filterMap
        Call.time?
      = [⟨1402041600000001024⟩, ⟨1402041600000001024⟩, ⟨1402041600000001024⟩,
          ⟨1402041600000001024⟩]
    ∧ (cleanedCloud sampleHooks (onePointCloud 1402041600000001)).header.stamp * 1000
      = 1402041600000001000 :=
  ⟨rfl, rfl⟩

/-- C10, as stated, fails: `updateTransformations` makes no wait on the pairs base/sensor and
map/base, and on a processor configured with a timeout of five seconds it makes no wait bounded
by that timeout. -/
theorem updateTransformations_waits_not_per_pair :
    (updateTransformations staticListener sampleProcessor "sensor" ⟨0⟩).2.2.any
        (Call.waitsOn "base" "sensor" (Duration.fromSec 1)) = false
      ∧ (updateTransformations staticListener sampleProcessor "sensor" ⟨0⟩).2.2.any
          (Call.waitsOn "map" "base" (Duration.fromSec 1)) = false
      ∧ (updateTransformations staticListener sampleProcessor "sensor" ⟨0⟩).2.2.any
          (Call.waitsOn "sensor" "map" sampleProcessor.transformListenerTimeout_) = false :=
  ⟨rfl, rfl, rfl⟩

/-- C10, amended: `updateTransformations` waits on the pose source once, before the first
lookup, for the pair of the sensor frame and the map frame at the given time stamp, with a
bound of one second, which is also the value the constructor gives to the configured timeout. -/
theorem updateTransformations_waits_once (A : Arith S) (tl : TransformListener S)
    (self : SensorProcessorBase S) (sensorFrameId : String) (timeStamp : Time) :
    (updateTransformations tl self sensorFrameId timeStamp).2.2.filter Call.isWaitForTransform
        = [Call.waitForTransform sensorFrameId self.mapFrameId_ timeStamp (Duration.fromSec 1)]
      ∧ (updateTransformations tl self sensorFrameId timeStamp).2.2.head?
        = some (Call.waitForTransform sensorFrameId self.mapFrameId_ timeStamp
            (Duration.fromSec 1))
      ∧ (SensorProcessorBase.new A).transformListenerTimeout_ = Duration.fromSec 1 := by
  rcases updateTransformations_cases tl self sensorFrameId timeStamp with
    ⟨_, h⟩ | ⟨_, _, _, h⟩ | ⟨_, _, _, _, _, h⟩ | ⟨_, _, _, _, _, _, h⟩ <;> rw [h] <;>
    exact ⟨rfl, rfl, rfl⟩

end elevation_mapping
